import Mathlib

/-!
A shallow embedding of `cache/jemalloc_nodump_allocator.cc` (the jemalloc
no-dump cache allocator) together with proofs of its specified properties.

The jemalloc runtime and the operating system are modelled as an explicit
environment (`Jemalloc`): each `mallctl` control operation, `mallocx`,
`malloc_usable_size` and `madvise` is a field of that environment, and
function pointers (extent hooks) are abstract `Nat` identities interpreted
by the environment.  Failed C `assert`s are modelled as the `Outcome.fatal`
outcome, since an assertion failure aborts the process.  The process-wide
atomic slot `JemallocNodumpAllocator::original_alloc_` is threaded through
the functions as an explicit `Option Nat` value.
-/

namespace rocksdb

/-- Outcome of running code whose C assertions may abort the process:
`fatal` is a failed assertion (process termination), `ok` a normal return. -/
inductive Outcome (α : Type) where
  | fatal : Outcome α
  | ok : α → Outcome α
deriving DecidableEq

/-- The jemalloc `extent_hooks_t` table: one abstract function-pointer
identity per entry, mirroring the fields of the C structure. -/
structure ExtentHooks where
  alloc : Nat
  dalloc : Nat
  destroy : Nat
  commit : Nat
  decommit : Nat
  purge_lazy : Nat
  purge_forced : Nat
  split : Nat
  merge : Nat
deriving DecidableEq

/-- Parameters an extent allocation hook receives:
`(extent_hooks_t* extent, void* new_addr, size_t size, size_t alignment,
bool* zero, bool* commit, unsigned arena_ind)`.  The `zero` and `commit`
fields hold the values currently behind the two `bool*` arguments. -/
structure AllocParams where
  extent : Nat
  new_addr : Option Nat
  size : Nat
  alignment : Nat
  zero : Bool
  commit : Bool
  arena_ind : Nat
deriving DecidableEq

/-- Result of an extent allocation call: the returned pointer (`none` is
`nullptr`) plus the values the callee left behind the `zero` and `commit`
out-parameters. -/
structure AllocResult where
  ptr : Option Nat
  zero : Bool
  commit : Bool
deriving DecidableEq

/-- The ambient jemalloc runtime and operating system, as observed by this
translation unit: the result of each `mallctl` control operation, the
allocation primitives, the interpretation of extent-alloc function-pointer
identities, and the `madvise(_, _, MADV_DONTDUMP)` return code. -/
structure Jemalloc where
  arenasCreate : Int × Nat
  readHooks : Nat → Int × ExtentHooks
  writeHooks : Nat → ExtentHooks → Int
  arenaDestroy : Nat → Int
  mallocx : Nat → Nat → Option Nat
  malloc_usable_size : Nat → Nat
  interpAlloc : Nat → AllocParams → AllocResult
  madvise : Nat → Nat → Int

/-- The `Status` values this translation unit produces. -/
inductive Status where
  | ok : Status
  | invalidArgument : String → Status
  | incomplete : String → Status
  | notSupported : String → Status
deriving DecidableEq

/-- A call made to the underlying jemalloc runtime: one constructor per
`mallctl` interaction this translation unit performs.  Used to record the
side effects of `NewJemallocNodumpAllocator` and of the destructor. -/
inductive JemallocCall where
  | arenasCreate : JemallocCall
  | readHooks : Nat → JemallocCall
  | writeHooks : Nat → ExtentHooks → JemallocCall
  | arenaDestroy : Nat → JemallocCall
deriving DecidableEq

/-- `JemallocNodumpAllocatorOptions`: currently just the diagnostic logger
(abstracted to an identity). -/
structure JemallocNodumpAllocatorOptions where
  info_log : Nat
deriving DecidableEq

/-- The `JemallocNodumpAllocator` object: arena index, mallocx flags, the
owned replacement hook table (`hooks_` is a `unique_ptr`, so nullable), and
the logger reference. -/
structure JemallocNodumpAllocator where
  arena_index_ : Nat
  flags_ : Nat
  hooks_ : Option ExtentHooks
  info_log_ : Nat
deriving DecidableEq

/-- `MALLOCX_ARENA(a)` from jemalloc: `((a)+1) << 20`. -/
def MALLOCX_ARENA (a : Nat) : Nat := (a + 1) <<< 20

/-- `MALLOCX_TCACHE_NONE` from jemalloc: `MALLOCX_TCACHE(-1) = 1 << 8`. -/
def MALLOCX_TCACHE_NONE : Nat := 256

/-- Abstract function-pointer identity of `&JemallocNodumpAllocator::Alloc`,
the custom extent-alloc hook installed into every arena created here. -/
def JemallocNodumpAllocator.allocFnId : Nat := 0

/-- `JemallocNodumpAllocator::Alloc`: load the process-wide
`original_alloc_` slot (assert non-null), delegate to it with the received
parameters, and if the result is non-null call
`madvise(result, size, MADV_DONTDUMP)`; a nonzero `madvise` return hits
`assert(false)`.  The original result is returned unchanged otherwise. -/
def JemallocNodumpAllocator.Alloc (env : Jemalloc) (original_alloc_ : Option Nat)
    (p : AllocParams) : Outcome AllocResult :=
  match original_alloc_ with
  | none => .fatal
  | some original_alloc =>
    let result := env.interpAlloc original_alloc p
    match result.ptr with
    | none => .ok result
    | some addr =>
      if env.madvise addr p.size ≠ 0 then .fatal else .ok result

/-- `JemallocNodumpAllocator::Allocate`: `mallocx(size, flags_)`. -/
def JemallocNodumpAllocator.Allocate (env : Jemalloc) (a : JemallocNodumpAllocator)
    (size : Nat) : Option Nat :=
  env.mallocx size a.flags_

/-- `JemallocNodumpAllocator::UsableSize`: `malloc_usable_size(p)`; the
`allocation_size` argument is ignored by the implementation. -/
def JemallocNodumpAllocator.UsableSize (env : Jemalloc) (a : JemallocNodumpAllocator)
    (p : Nat) (allocation_size : Nat) : Nat :=
  env.malloc_usable_size p

/-- `JemallocNodumpAllocator::~JemallocNodumpAllocator`:
`assert(arena_index_ != 0)`, then one `mallctl("arena.<i>.destroy")`; a
nonzero return is logged via `ROCKS_LOG_ERROR` and otherwise ignored.
Returns the list of jemalloc calls made and the list of logged messages. -/
def JemallocNodumpAllocator.destructor (env : Jemalloc) (a : JemallocNodumpAllocator) :
    Outcome (List JemallocCall × List String) :=
  if a.arena_index_ = 0 then .fatal
  else
    let ret := env.arenaDestroy a.arena_index_
    if ret ≠ 0 then
      .ok ([.arenaDestroy a.arena_index_],
           ["Failed to destroy arena, error code: " ++ toString ret])
    else
      .ok ([.arenaDestroy a.arena_index_], [])

/-- The `compare_exchange_strong` on `original_alloc_` with
`expected = nullptr`, together with `assert(success || original_alloc ==
expected)`: an unset slot is set to the captured original; a set slot must
already hold the captured original, otherwise the assert fires. -/
def casOriginalAlloc (slot : Option Nat) (original_alloc : Nat) : Outcome (Option Nat) :=
  match slot with
  | none => .ok (some original_alloc)
  | some expected =>
    if original_alloc = expected then .ok (some expected) else .fatal

/-- Everything observable when `NewJemallocNodumpAllocator` returns: the
`Status`, the value stored through `*cache_allocator` (`none` if it was not
written), the final value of the process-wide `original_alloc_` slot, and
the jemalloc calls performed. -/
structure CreateOutput where
  status : Status
  allocator : Option JemallocNodumpAllocator
  slot : Option Nat
  calls : List JemallocCall
deriving DecidableEq

/-- The replacement hook table `new extent_hooks_t(*hooks)` followed by
`new_hooks->alloc = &JemallocNodumpAllocator::Alloc`: a copy of the
original table with only the `alloc` entry replaced. -/
def newHooks (hooks : ExtentHooks) : ExtentHooks :=
  { hooks with alloc := JemallocNodumpAllocator.allocFnId }

/-- Tail of `NewJemallocNodumpAllocator` after the compare-and-set: build
the replacement hook table with the `alloc` entry replaced by the custom
hook, write it into the arena via `mallctl`, and on success construct the
allocator object. -/
def setCustomHook (env : Jemalloc) (options : JemallocNodumpAllocatorOptions)
    (arena_index : Nat) (flags : Nat) (hooks : ExtentHooks) (slot : Option Nat) :
    Outcome CreateOutput :=
  if env.writeHooks arena_index (newHooks hooks) ≠ 0 then
    .ok ⟨.incomplete ("Failed to set custom hook, error code: " ++
           toString (env.writeHooks arena_index (newHooks hooks))), none, slot,
         [.arenasCreate, .readHooks arena_index, .writeHooks arena_index (newHooks hooks)]⟩
  else
    .ok ⟨.ok, some ⟨arena_index, flags, some (newHooks hooks), options.info_log⟩, slot,
         [.arenasCreate, .readHooks arena_index, .writeHooks arena_index (newHooks hooks)]⟩

/-- `NewJemallocNodumpAllocator`: the factory.  `available` is the
`ROCKSDB_JEMALLOC_NODUMP_ALLOCATOR` build configuration;
`cacheAllocatorNull` says whether the `cache_allocator` out-parameter is
null; `slot` is the value of `original_alloc_` on entry. -/
def NewJemallocNodumpAllocator (available : Bool) (env : Jemalloc)
    (options : JemallocNodumpAllocatorOptions) (slot : Option Nat)
    (cacheAllocatorNull : Bool) : Outcome CreateOutput :=
  if available = false then
    .ok ⟨.notSupported ("JemallocNodumpAllocator only available with jemalloc version >= 5 " ++
           "and MADV_DONTDUMP is available."), none, slot, []⟩
  else if cacheAllocatorNull = true then
    .ok ⟨.invalidArgument "cache_allocator is nullptr.", none, slot, []⟩
  else
    let ret := (env.arenasCreate).1
    let arena_index := (env.arenasCreate).2
    if ret ≠ 0 then
      .ok ⟨.incomplete ("Failed to create jemalloc arena, error code: " ++ toString ret), none,
           slot, [.arenasCreate]⟩
    else if arena_index = 0 then
      .fatal
    else
      let flags := MALLOCX_ARENA arena_index ||| MALLOCX_TCACHE_NONE
      let ret2 := (env.readHooks arena_index).1
      let hooks := (env.readHooks arena_index).2
      if ret2 ≠ 0 then
        .ok ⟨.incomplete ("Failed to read existing hooks, error code: " ++ toString ret2), none,
             slot, [.arenasCreate, .readHooks arena_index]⟩
      else
        match casOriginalAlloc slot hooks.alloc with
        | .fatal => .fatal
        | .ok slot' => setCustomHook env options arena_index flags hooks slot'

/-- A non-fatal compare-and-set leaves the slot holding exactly the captured
original function, and can only have started from an unset slot or from a
slot already holding that value. -/
lemma casOriginalAlloc_ok_inv (slot : Option Nat) (orig : Nat) (slot' : Option Nat)
    (h : casOriginalAlloc slot orig = .ok slot') :
    slot' = some orig ∧ (slot = none ∨ slot = some orig) := by
  cases slot with
  | none =>
    injection h with h
    exact ⟨h.symm, Or.inl rfl⟩
  | some expected =>
    have h' : (if orig = expected then Outcome.ok (some expected) else Outcome.fatal) =
        Outcome.ok slot' := h
    by_cases he : orig = expected
    · subst he
      rw [if_pos rfl] at h'
      injection h' with h'
      exact ⟨h'.symm, Or.inr rfl⟩
    · rw [if_neg he] at h'
      exact Outcome.noConfusion h'

/-- Complete case analysis of a non-aborting run of
`NewJemallocNodumpAllocator` in the available, non-null-argument
configuration: exactly one of the four branches (arena creation failed,
hook read failed, hook write failed, success) happened, and the output is
the branch's literal value. -/
lemma newJemallocNodumpAllocator_ok_inv (env : Jemalloc)
    (options : JemallocNodumpAllocatorOptions) (slot : Option Nat) (out : CreateOutput)
    (h : NewJemallocNodumpAllocator true env options slot false = .ok out) :
    ((env.arenasCreate).1 ≠ 0 ∧
      out = ⟨.incomplete ("Failed to create jemalloc arena, error code: " ++
               toString (env.arenasCreate).1), none, slot, [.arenasCreate]⟩) ∨
    ((env.arenasCreate).1 = 0 ∧ (env.arenasCreate).2 ≠ 0 ∧
      (env.readHooks (env.arenasCreate).2).1 ≠ 0 ∧
      out = ⟨.incomplete ("Failed to read existing hooks, error code: " ++
               toString (env.readHooks (env.arenasCreate).2).1), none, slot,
             [.arenasCreate, .readHooks (env.arenasCreate).2]⟩) ∨
    ((env.arenasCreate).1 = 0 ∧ (env.arenasCreate).2 ≠ 0 ∧
      (env.readHooks (env.arenasCreate).2).1 = 0 ∧
      (slot = none ∨ slot = some (env.readHooks (env.arenasCreate).2).2.alloc) ∧
      env.writeHooks (env.arenasCreate).2 (newHooks (env.readHooks (env.arenasCreate).2).2) ≠ 0 ∧
      out = ⟨.incomplete ("Failed to set custom hook, error code: " ++
               toString (env.writeHooks (env.arenasCreate).2
                 (newHooks (env.readHooks (env.arenasCreate).2).2))), none,
             some (env.readHooks (env.arenasCreate).2).2.alloc,
             [.arenasCreate, .readHooks (env.arenasCreate).2,
              .writeHooks (env.arenasCreate).2
                (newHooks (env.readHooks (env.arenasCreate).2).2)]⟩) ∨
    ((env.arenasCreate).1 = 0 ∧ (env.arenasCreate).2 ≠ 0 ∧
      (env.readHooks (env.arenasCreate).2).1 = 0 ∧
      (slot = none ∨ slot = some (env.readHooks (env.arenasCreate).2).2.alloc) ∧
      env.writeHooks (env.arenasCreate).2 (newHooks (env.readHooks (env.arenasCreate).2).2) = 0 ∧
      out = ⟨.ok,
             some ⟨(env.arenasCreate).2,
                   MALLOCX_ARENA (env.arenasCreate).2 ||| MALLOCX_TCACHE_NONE,
                   some (newHooks (env.readHooks (env.arenasCreate).2).2),
                   options.info_log⟩,
             some (env.readHooks (env.arenasCreate).2).2.alloc,
             [.arenasCreate, .readHooks (env.arenasCreate).2,
              .writeHooks (env.arenasCreate).2
                (newHooks (env.readHooks (env.arenasCreate).2).2)]⟩) := by
  simp only [NewJemallocNodumpAllocator] at h
  rw [if_neg (show ¬(true = false) from by decide),
      if_neg (show ¬(false = true) from by decide)] at h
  split at h
  next h1 =>
    left
    injection h with h
    exact ⟨h1, h.symm⟩
  next h1 =>
    split at h
    next h2 => exact Outcome.noConfusion h
    next h2 =>
      split at h
      next h3 =>
        right; left
        injection h with h
        exact ⟨not_not.mp h1, h2, h3, h.symm⟩
      next h3 =>
        split at h
        next heq => exact Outcome.noConfusion h
        next slot' heq =>
          obtain ⟨hs', hstart⟩ := casOriginalAlloc_ok_inv _ _ _ heq
          subst hs'
          simp only [setCustomHook] at h
          split at h
          next h4 =>
            right; right; left
            injection h with h
            exact ⟨not_not.mp h1, h2, not_not.mp h3, hstart, h4, h.symm⟩
          next h4 =>
            right; right; right
            injection h with h
            exact ⟨not_not.mp h1, h2, not_not.mp h3, hstart, not_not.mp h4, h.symm⟩

/-- A concrete extent-hook table used to instantiate the theorems. -/
def hooksW : ExtentHooks := ⟨11, 12, 13, 14, 15, 16, 17, 18, 19⟩

/-- A concrete, fully succeeding jemalloc environment. -/
def envW : Jemalloc where
  arenasCreate := (0, 3)
  readHooks := fun _ => (0, hooksW)
  writeHooks := fun _ _ => 0
  arenaDestroy := fun _ => 0
  mallocx := fun size _ => some (size + 1)
  malloc_usable_size := fun p => p
  interpAlloc := fun _ p => ⟨some 500, p.zero, p.commit⟩
  madvise := fun _ _ => 0

/-- A concrete environment whose `madvise` call fails. -/
def envF : Jemalloc := { envW with madvise := fun _ _ => 12 }

/-- A concrete environment whose hook-table read fails with code 5. -/
def envR : Jemalloc := { envW with readHooks := fun _ => (5, hooksW) }

/-- A concrete environment whose arena-destroy fails with code 9. -/
def envD : Jemalloc := { envW with arenaDestroy := fun _ => 9 }

/-- Concrete extent-allocation parameters. -/
def pW : AllocParams := ⟨1, none, 4096, 4096, false, true, 3⟩

/-- Concrete factory options. -/
def optionsW : JemallocNodumpAllocatorOptions := ⟨7⟩

/-- The allocator produced by a successful create in `envW`. -/
def aW : JemallocNodumpAllocator :=
  ⟨3, MALLOCX_ARENA 3 ||| MALLOCX_TCACHE_NONE, some (newHooks hooksW), 7⟩

/-- The full output of a successful create in `envW` starting from an unset
slot. -/
def outW : CreateOutput :=
  ⟨.ok, some aW, some 11, [.arenasCreate, .readHooks 3, .writeHooks 3 (newHooks hooksW)]⟩

/-- C1: when the delegated original allocation returns a non-null extent and
the `madvise(MADV_DONTDUMP)` advisory on it fails, `Alloc` hits a fatal
assertion; conversely `Alloc` never returns a successful allocation whose
returned range failed the dump-exclusion advisory. -/
theorem alloc_madvise_failure_is_fatal (env : Jemalloc) (slot : Option Nat) (p : AllocParams) :
    (∀ f addr, slot = some f → (env.interpAlloc f p).ptr = some addr →
      env.madvise addr p.size ≠ 0 →
      JemallocNodumpAllocator.Alloc env slot p = .fatal) ∧
    (∀ r addr, JemallocNodumpAllocator.Alloc env slot p = .ok r → r.ptr = some addr →
      env.madvise addr p.size = 0) := by
  constructor
  · rintro f addr rfl hptr hmad
    simp only [JemallocNodumpAllocator.Alloc]
    split
    next heq => rw [heq] at hptr; exact Option.noConfusion hptr
    next a heq =>
      rw [heq] at hptr
      injection hptr with hptr
      subst hptr
      rw [if_pos hmad]
  · intro r addr h hptr
    cases slot with
    | none => exact Outcome.noConfusion h
    | some f =>
      simp only [JemallocNodumpAllocator.Alloc] at h
      split at h
      next heq =>
        injection h with h
        subst h
        rw [heq] at hptr
        exact Option.noConfusion hptr
      next a heq =>
        split at h
        next => exact Outcome.noConfusion h
        next hm =>
          injection h with h
          subst h
          rw [heq] at hptr
          injection hptr with hptr
          subst hptr
          exact not_not.mp hm

/-- Concrete run of C1: with `madvise` failing, `Alloc` aborts. -/
theorem alloc_madvise_failure_is_fatal_witness :
    JemallocNodumpAllocator.Alloc envF (some 1) pW = .fatal :=
  (alloc_madvise_failure_is_fatal envF (some 1) pW).1 1 500 rfl (by decide) (by decide)

/-- C3: `Alloc` asserts the process-wide original-function slot is non-null
(aborting when it is null), and any non-fatal return is exactly the result
of delegating to that original function with the received parameters,
pointer and output flags unchanged. -/
theorem alloc_delegates_unchanged (env : Jemalloc) (slot : Option Nat) (p : AllocParams) :
    JemallocNodumpAllocator.Alloc env none p = .fatal ∧
    (∀ r, JemallocNodumpAllocator.Alloc env slot p = .ok r →
      ∃ f, slot = some f ∧ r = env.interpAlloc f p) := by
  refine ⟨rfl, ?_⟩
  intro r h
  cases slot with
  | none => exact Outcome.noConfusion h
  | some f =>
    refine ⟨f, rfl, ?_⟩
    simp only [JemallocNodumpAllocator.Alloc] at h
    split at h
    next => injection h with h; exact h.symm
    next =>
      split at h
      next => exact Outcome.noConfusion h
      next => injection h with h; exact h.symm

/-- Concrete run of C3: a successful interception returns exactly the
original function's result. -/
theorem alloc_delegates_unchanged_witness :
    ∃ f, (some 1 : Option Nat) = some f ∧
      (⟨some 500, false, true⟩ : AllocResult) = envW.interpAlloc f pW :=
  (alloc_delegates_unchanged envW (some 1) pW).2 ⟨some 500, false, true⟩ (by decide)

/-- C5: a null `cache_allocator` out-parameter yields `InvalidArgument`
with no jemalloc interaction at all: no call is made, the out-parameter is
not written and the original-function slot is left unchanged. -/
theorem newAllocator_null_out_invalid_argument (env : Jemalloc)
    (options : JemallocNodumpAllocatorOptions) (slot : Option Nat) :
    NewJemallocNodumpAllocator true env options slot true =
      .ok ⟨.invalidArgument "cache_allocator is nullptr.", none, slot, []⟩ := rfl

/-- C9: if `Allocate` returns a non-null pointer then `UsableSize` on that
pointer is at least the requested size, given the underlying allocator's
size-class contract relating `mallocx` and `malloc_usable_size`. -/
theorem usable_size_ge_allocated (env : Jemalloc) (a : JemallocNodumpAllocator) (n p : Nat)
    (hwf : ∀ size flags q, env.mallocx size flags = some q →
      size ≤ env.malloc_usable_size q)
    (h : JemallocNodumpAllocator.Allocate env a n = some p) :
    n ≤ JemallocNodumpAllocator.UsableSize env a p n :=
  hwf n a.flags_ p h

/-- Concrete run of C9 in `envW`. -/
theorem usable_size_ge_allocated_witness :
    4096 ≤ JemallocNodumpAllocator.UsableSize envW aW 4097 4096 :=
  usable_size_ge_allocated envW aW 4096 4097
    (by
      intro s f q hq
      have h1 : s + 1 = q := by injection hq
      show s ≤ envW.malloc_usable_size q
      rw [← h1]
      exact Nat.le_succ s)
    (by decide)

/-- C10: `UsableSize` is independent of the requested-size argument; its
value is exactly the underlying allocator's query on the pointer. -/
theorem usable_size_ignores_requested (env : Jemalloc) (a : JemallocNodumpAllocator)
    (p s1 s2 : Nat) :
    JemallocNodumpAllocator.UsableSize env a p s1 =
      JemallocNodumpAllocator.UsableSize env a p s2 ∧
    JemallocNodumpAllocator.UsableSize env a p s1 = env.malloc_usable_size p :=
  ⟨rfl, rfl⟩

/-- C8: the destructor issues exactly one arena-destroy request for this
instance's arena index and always completes normally; a failing destroy is
only reported through the diagnostic log, never propagated. -/
theorem destructor_destroy_once_log_only (env : Jemalloc) (a : JemallocNodumpAllocator)
    (h : a.arena_index_ ≠ 0) :
    ∃ logs, JemallocNodumpAllocator.destructor env a =
        .ok ([.arenaDestroy a.arena_index_], logs) ∧
      (env.arenaDestroy a.arena_index_ = 0 → logs = []) ∧
      (env.arenaDestroy a.arena_index_ ≠ 0 →
        logs = ["Failed to destroy arena, error code: " ++
          toString (env.arenaDestroy a.arena_index_)]) := by
  simp only [JemallocNodumpAllocator.destructor]
  rw [if_neg h]
  by_cases hr : env.arenaDestroy a.arena_index_ ≠ 0
  · refine ⟨["Failed to destroy arena, error code: " ++
      toString (env.arenaDestroy a.arena_index_)], ?_, fun h0 => absurd h0 hr, fun _ => rfl⟩
    rw [if_pos hr]
  · refine ⟨[], ?_, fun _ => rfl, fun hne => absurd (not_not.mp hr) hne⟩
    rw [if_neg hr]

/-- Concrete run of C8: a failing arena-destroy is logged and the
destructor still returns normally with a single destroy request. -/
theorem destructor_destroy_once_log_only_witness :
    ∃ logs, JemallocNodumpAllocator.destructor envD aW =
        .ok ([.arenaDestroy aW.arena_index_], logs) ∧
      (envD.arenaDestroy aW.arena_index_ = 0 → logs = []) ∧
      (envD.arenaDestroy aW.arena_index_ ≠ 0 →
        logs = ["Failed to destroy arena, error code: " ++
          toString (envD.arenaDestroy aW.arena_index_)]) :=
  destructor_destroy_once_log_only envD aW (by decide)

/-- C4: with a non-null out-parameter, any non-aborting run of the factory
yields either a success whose allocator has a non-zero arena index and a
non-null owned hook table, or one of the defined errors with the
out-parameter never written. -/
theorem newAllocator_total_or_error (available : Bool) (env : Jemalloc)
    (options : JemallocNodumpAllocatorOptions) (slot : Option Nat) (out : CreateOutput)
    (h : NewJemallocNodumpAllocator available env options slot false = .ok out) :
    (out.status = .ok ∧ ∃ a, out.allocator = some a ∧ a.arena_index_ ≠ 0 ∧ a.hooks_ ≠ none) ∨
    (out.allocator = none ∧
      ((∃ m, out.status = .invalidArgument m) ∨ (∃ m, out.status = .incomplete m) ∨
       (∃ m, out.status = .notSupported m))) := by
  cases available with
  | false =>
    injection h with h
    subst h
    exact Or.inr ⟨rfl, Or.inr (Or.inr ⟨_, rfl⟩)⟩
  | true =>
    rcases newJemallocNodumpAllocator_ok_inv env options slot out h with
      ⟨_, rfl⟩ | ⟨_, _, _, rfl⟩ | ⟨_, _, _, _, _, rfl⟩ | ⟨_, h2, _, _, _, rfl⟩
    · exact Or.inr ⟨rfl, Or.inr (Or.inl ⟨_, rfl⟩)⟩
    · exact Or.inr ⟨rfl, Or.inr (Or.inl ⟨_, rfl⟩)⟩
    · exact Or.inr ⟨rfl, Or.inr (Or.inl ⟨_, rfl⟩)⟩
    · exact Or.inl ⟨rfl, _, rfl, h2, by simp⟩

/-- Concrete run of C4: the successful create in `envW` yields a fully
initialized allocator. -/
theorem newAllocator_total_or_error_witness :
    (outW.status = .ok ∧
      ∃ a, outW.allocator = some a ∧ a.arena_index_ ≠ 0 ∧ a.hooks_ ≠ none) ∨
    (outW.allocator = none ∧
      ((∃ m, outW.status = .invalidArgument m) ∨ (∃ m, outW.status = .incomplete m) ∨
       (∃ m, outW.status = .notSupported m))) :=
  newAllocator_total_or_error true envW optionsW none outW (by decide)

/-- C6: the hook table owned by a constructed allocator is the arena's
original table with exactly the `alloc` entry replaced by the custom hook;
every other entry is copied unchanged. -/
theorem newAllocator_replaces_only_alloc_hook (env : Jemalloc)
    (options : JemallocNodumpAllocatorOptions) (slot : Option Nat) (out : CreateOutput)
    (a : JemallocNodumpAllocator)
    (h : NewJemallocNodumpAllocator true env options slot false = .ok out)
    (ha : out.allocator = some a) :
    ∃ hks, a.hooks_ = some hks ∧
      hks.alloc = JemallocNodumpAllocator.allocFnId ∧
      hks.dalloc = (env.readHooks (env.arenasCreate).2).2.dalloc ∧
      hks.destroy = (env.readHooks (env.arenasCreate).2).2.destroy ∧
      hks.commit = (env.readHooks (env.arenasCreate).2).2.commit ∧
      hks.decommit = (env.readHooks (env.arenasCreate).2).2.decommit ∧
      hks.purge_lazy = (env.readHooks (env.arenasCreate).2).2.purge_lazy ∧
      hks.purge_forced = (env.readHooks (env.arenasCreate).2).2.purge_forced ∧
      hks.split = (env.readHooks (env.arenasCreate).2).2.split ∧
      hks.merge = (env.readHooks (env.arenasCreate).2).2.merge := by
  rcases newJemallocNodumpAllocator_ok_inv env options slot out h with
    ⟨_, rfl⟩ | ⟨_, _, _, rfl⟩ | ⟨_, _, _, _, _, rfl⟩ | ⟨_, _, _, _, _, rfl⟩
  · exact Option.noConfusion ha
  · exact Option.noConfusion ha
  · exact Option.noConfusion ha
  · injection ha with ha
    subst ha
    exact ⟨newHooks (env.readHooks (env.arenasCreate).2).2,
      rfl, rfl, rfl, rfl, rfl, rfl, rfl, rfl, rfl, rfl⟩

/-- Concrete run of C6 on the allocator constructed in `envW`. -/
theorem newAllocator_replaces_only_alloc_hook_witness :
    ∃ hks, aW.hooks_ = some hks ∧
      hks.alloc = JemallocNodumpAllocator.allocFnId ∧
      hks.dalloc = (envW.readHooks (envW.arenasCreate).2).2.dalloc ∧
      hks.destroy = (envW.readHooks (envW.arenasCreate).2).2.destroy ∧
      hks.commit = (envW.readHooks (envW.arenasCreate).2).2.commit ∧
      hks.decommit = (envW.readHooks (envW.arenasCreate).2).2.decommit ∧
      hks.purge_lazy = (envW.readHooks (envW.arenasCreate).2).2.purge_lazy ∧
      hks.purge_forced = (envW.readHooks (envW.arenasCreate).2).2.purge_forced ∧
      hks.split = (envW.readHooks (envW.arenasCreate).2).2.split ∧
      hks.merge = (envW.readHooks (envW.arenasCreate).2).2.merge :=
  newAllocator_replaces_only_alloc_hook envW optionsW none outW aW (by decide) (by decide)

/-- The output of a create in `envR`, whose hook-table read fails. -/
def outR : CreateOutput :=
  ⟨.incomplete ("Failed to read existing hooks, error code: " ++ toString (5 : Int)),
   none, none, [.arenasCreate, .readHooks 3]⟩

/-- C7: when arena creation succeeded but a later provisioning step (hook
read or hook write) fails, the factory returns `Incomplete` carrying the
underlying numeric status, and performs no rollback: no arena-destroy
request is issued, the created arena staying in place. -/
theorem newAllocator_incomplete_no_rollback (env : Jemalloc)
    (options : JemallocNodumpAllocatorOptions) (slot : Option Nat) (out : CreateOutput)
    (h : NewJemallocNodumpAllocator true env options slot false = .ok out)
    (hc : (env.arenasCreate).1 = 0)
    (hf : (env.readHooks (env.arenasCreate).2).1 ≠ 0 ∨
      env.writeHooks (env.arenasCreate).2
        (newHooks (env.readHooks (env.arenasCreate).2).2) ≠ 0) :
    (((env.readHooks (env.arenasCreate).2).1 ≠ 0 ∧
       out.status = .incomplete ("Failed to read existing hooks, error code: " ++
         toString (env.readHooks (env.arenasCreate).2).1)) ∨
     ((env.readHooks (env.arenasCreate).2).1 = 0 ∧
       env.writeHooks (env.arenasCreate).2
         (newHooks (env.readHooks (env.arenasCreate).2).2) ≠ 0 ∧
       out.status = .incomplete ("Failed to set custom hook, error code: " ++
         toString (env.writeHooks (env.arenasCreate).2
           (newHooks (env.readHooks (env.arenasCreate).2).2))))) ∧
    JemallocCall.arenasCreate ∈ out.calls ∧
    ∀ i, JemallocCall.arenaDestroy i ∉ out.calls := by
  rcases newJemallocNodumpAllocator_ok_inv env options slot out h with
    ⟨h1, rfl⟩ | ⟨_, _, h3, rfl⟩ | ⟨_, _, h3, _, h4, rfl⟩ | ⟨_, _, h3, _, h4, rfl⟩
  · exact absurd hc h1
  · exact ⟨Or.inl ⟨h3, rfl⟩, by simp, by simp⟩
  · exact ⟨Or.inr ⟨h3, h4, rfl⟩, by simp, by simp⟩
  · rcases hf with hf | hf
    · exact absurd h3 hf
    · exact absurd h4 hf

/-- Concrete run of C7 in `envR`: the arena was created, the hook read
failed, and no arena-destroy call was issued. -/
theorem newAllocator_incomplete_no_rollback_witness :
    JemallocCall.arenasCreate ∈ outR.calls ∧
    ∀ i, JemallocCall.arenaDestroy i ∉ outR.calls :=
  (newAllocator_incomplete_no_rollback envR optionsW none outR rfl (by decide)
    (Or.inl (by decide))).2

/-- C2: the process-wide original-function slot is written at most once:
the first successful create installs the captured original hook into the
unset slot, any later non-aborting create starting from a set slot leaves
it unchanged, and two successful creates in sequence capture and delegate
to the identical original allocation function. -/
theorem original_alloc_slot_write_once (env1 env2 : Jemalloc)
    (options1 options2 : JemallocNodumpAllocatorOptions) (out1 out2 : CreateOutput)
    (h1 : NewJemallocNodumpAllocator true env1 options1 none false = .ok out1)
    (h1s : out1.status = .ok)
    (h2 : NewJemallocNodumpAllocator true env2 options2 out1.slot false = .ok out2)
    (h2s : out2.status = .ok) :
    (∃ v, out1.slot = some v ∧ out2.slot = some v ∧
      v = (env1.readHooks (env1.arenasCreate).2).2.alloc ∧
      v = (env2.readHooks (env2.arenasCreate).2).2.alloc) ∧
    (∀ env3 options3 s out3 v, s = some v →
      NewJemallocNodumpAllocator true env3 options3 s false = .ok out3 →
      out3.slot = some v) := by
  constructor
  · rcases newJemallocNodumpAllocator_ok_inv env1 options1 none out1 h1 with
      ⟨_, rfl⟩ | ⟨_, _, _, rfl⟩ | ⟨_, _, _, _, _, rfl⟩ | ⟨_, _, _, _, _, rfl⟩
    · exact Status.noConfusion h1s
    · exact Status.noConfusion h1s
    · exact Status.noConfusion h1s
    · rcases newJemallocNodumpAllocator_ok_inv env2 options2 _ out2 h2 with
        ⟨_, rfl⟩ | ⟨_, _, _, rfl⟩ | ⟨_, _, _, _, _, rfl⟩ | ⟨_, _, _, hstart, _, rfl⟩
      · exact Status.noConfusion h2s
      · exact Status.noConfusion h2s
      · exact Status.noConfusion h2s
      · rcases hstart with hn | hs
        · exact Option.noConfusion hn
        · injection hs with hs
          exact ⟨(env1.readHooks (env1.arenasCreate).2).2.alloc, rfl,
            by rw [← hs], rfl, hs⟩
  · intro env3 options3 s out3 v hsv h3
    subst hsv
    rcases newJemallocNodumpAllocator_ok_inv env3 options3 (some v) out3 h3 with
      ⟨_, rfl⟩ | ⟨_, _, _, rfl⟩ | ⟨_, _, _, hstart, _, rfl⟩ | ⟨_, _, _, hstart, _, rfl⟩
    · rfl
    · rfl
    · rcases hstart with hn | hs
      · exact Option.noConfusion hn
      · injection hs with hs
        rw [hs]
    · rcases hstart with hn | hs
      · exact Option.noConfusion hn
      · injection hs with hs
        rw [hs]

/-- Concrete run of C2: two successful creates in `envW` leave the slot at
the single captured original function. -/
theorem original_alloc_slot_write_once_witness :
    ∃ v, outW.slot = some v ∧ outW.slot = some v ∧
      v = (envW.readHooks (envW.arenasCreate).2).2.alloc ∧
      v = (envW.readHooks (envW.arenasCreate).2).2.alloc :=
  (original_alloc_slot_write_once envW envW optionsW optionsW outW outW
    (by decide) (by decide) (by decide) (by decide)).1

end rocksdb
